import Mathlib

/-!
# Verification of the `process_document` HTTP handler (src/main.py)

A shallow embedding of the single request handler of this repository: a
Python Cloud Function that (1) validates a JSON body carrying a `fileUrl`,
(2) downloads the file via HTTP GET, (3) submits the bytes to a remote
document-processing (Document AI) service, (4) POSTs the extracted text to
a tabular-data (Airtable) endpoint, and (5) answers the caller with the
extracted text or a JSON error.

The three outbound calls are external; their behaviour per invocation is
supplied by an `Env` record (each call happens at most once per request, so
one outcome each suffices). The handler is embedded as a total function
returning the trace of outbound calls together with the HTTP response.
`print` logging in the source has no effect on the response or the outbound
calls and is not modelled.
-/

namespace FinApp

/-- A JSON value, as produced by `request.get_json()` and consumed by
`jsonify` / `requests.post(..., json=...)`. -/
inductive Json where
  | null : Json
  | bool : Bool → Json
  | num : Int → Json
  | str : String → Json
  | arr : List Json → Json
  | obj : List (String × Json) → Json
deriving Repr

/-- Python truthiness of a JSON value (`if not request_json`):
`None`, `False`, `0`, `""`, `[]`, `{}` are falsy. -/
def Json.truthy : Json → Bool
  | .null => false
  | .bool b => b
  | .num n => n != 0
  | .str s => s != ""
  | .arr xs => !xs.isEmpty
  | .obj fs => !fs.isEmpty

/-- Equality test of a JSON value against a Python string (used by list
membership: `'fileUrl' in [...]` compares the string to each element). -/
def Json.eqStr : Json → String → Bool
  | .str s, t => s == t
  | _, _ => false

/-- Result of a Python membership test `k in v`, which can raise
`TypeError` for non-container values. -/
inductive InResult where
  | ok (b : Bool) : InResult
  | typeError (msg : String) : InResult
deriving Repr

/-- Python semantics of `'fileUrl' in request_json`: key lookup for dicts,
element comparison for lists, substring test for strings, `TypeError`
otherwise. (The only key used is the non-empty literal `"fileUrl"`, for
which the `splitOn` substring test agrees with Python.) -/
def Json.hasMember : Json → String → InResult
  | .obj fs, k => .ok (fs.any (fun p => p.1 == k))
  | .arr xs, k => .ok (xs.any (fun j => j.eqStr k))
  | .str s, k => .ok ((s.splitOn k).length > 1)
  | .num _, _ => .typeError "argument of type int is not iterable"
  | .bool _, _ => .typeError "argument of type bool is not iterable"
  | .null, _ => .typeError "argument of type NoneType is not iterable"

/-- Python semantics of `request_json['fileUrl']`: dict lookup (keys of a
parsed JSON object are unique), `TypeError` for lists and strings indexed
by a string, `TypeError` for non-subscriptable values. -/
def Json.getItem : Json → String → Except String Json
  | .obj fs, k =>
    match fs.find? (fun p => p.1 == k) with
    | some p => .ok p.2
    | none => .error ("KeyError: " ++ k)
  | .arr _, _ => .error "list indices must be integers or slices, not str"
  | .str _, _ => .error "string indices must be integers"
  | .num _, _ => .error "int object is not subscriptable"
  | .bool _, _ => .error "bool object is not subscriptable"
  | .null, _ => .error "NoneType object is not subscriptable"

/-- An entity of the Document AI result. Read only for diagnostic logging
in the source (lines 92-96); never used in the response. -/
structure Entity where
  type_ : String
  confidence : Int
  mention_text : String
deriving Repr

/-- The document of a Document AI result (`result.document`): extracted
text plus metadata. Only `text` flows into the response and the tabular
push; the rest is read only for logging. -/
structure Document where
  text : String
  mime_type : String
  page_count : Nat
  entities : List Entity
deriving Repr

/-- Outcome of `requests.get(file_url)` (src/main.py line 43): either a
raised exception (carrying its string message) or a response with a status
code and content bytes. -/
inductive FetchOutcome where
  | raises (msg : String) : FetchOutcome
  | returns (status_code : Nat) (content : List UInt8) : FetchOutcome
deriving Repr

/-- Outcome of `client.process_document(request=request)` (line 74):
either a raised exception or a result carrying a document. -/
inductive DocAIOutcome where
  | raises (msg : String) : DocAIOutcome
  | returns (document : Document) : DocAIOutcome
deriving Repr

/-- Outcome of `requests.post(airtable_url, ...)` (line 118). The local
`except` clause (line 129) catches only `requests.exceptions.RequestException`,
so raised exceptions are split into that class and all other exceptions. -/
inductive AirtableOutcome where
  | raisesRequestException (msg : String) : AirtableOutcome
  | raisesOther (msg : String) : AirtableOutcome
  | returns (status_code : Nat) (text : String) : AirtableOutcome
deriving Repr

/-- Behaviour of the external world for one invocation: the outcome of
each of the three outbound calls (each is made at most once). -/
structure Env where
  fetchOutcome : FetchOutcome
  docaiOutcome : DocAIOutcome
  airtableOutcome : AirtableOutcome

/-- The environment-provided configuration values (src/main.py lines 9-17). -/
structure Config where
  PROJECT_ID : String
  LOCATION : String
  PROCESSOR_ID : String
  BUCKET_NAME : String
  AIRTABLE_API_KEY : String
  AIRTABLE_BASE_ID : String
  AIRTABLE_TABLE_NAME : String

/-- Outcome of `request.get_json()` (src/main.py line 34). Flask's
`get_json` with its default `silent=False` RAISES `BadRequest` on a
malformed JSON body (and, in recent Flask, on a non-JSON content type);
`None` is returned only in legacy wrong-content-type situations. The
raised exception escapes to the outer `except Exception`. -/
inductive GetJsonOutcome where
  | raises (msg : String) : GetJsonOutcome
  | returns (j : Option Json) : GetJsonOutcome
deriving Repr

/-- The incoming HTTP request: its method, and the outcome of calling
`request.get_json()` on its body. -/
structure HttpRequest where
  method : String
  get_json : GetJsonOutcome

/-- An outgoing HTTP response: body, status code, headers. -/
structure HttpResponse where
  body : Json
  status : Nat
  headers : List (String × String)
deriving Repr

/-- One outbound call, as recorded in the handler trace. -/
inductive Call where
  | fetch (url : Json) : Call
  | docaiProcess (name : String) (content : List UInt8) (mime_type : String) : Call
  | airtablePost (url : String) (headers : List (String × String)) (body : Json) : Call
deriving Repr

/-- `headers = {'Access-Control-Allow-Origin': '*'}` (line 31). -/
def corsHeaders : List (String × String) := [("Access-Control-Allow-Origin", "*")]

/-- `jsonify({'error': msg})`. -/
def errorBody (msg : String) : Json := .obj [("error", .str msg)]

/-- The body of the outer `try` of `process_document` (src/main.py lines
34-137), given `request_json = request.get_json()`. Returns the trace of
outbound calls and either the response returned inside the `try`, or the
string message of an exception that escapes it (to be absorbed by the
outer `except Exception`). -/
def processDocumentTry (cfg : Config) (env : Env) (gj : GetJsonOutcome) :
    List Call × Except String HttpResponse :=
  match gj with
  | .raises msg => ([], .error msg)
  | .returns none => ([], .ok ⟨errorBody "No file URL provided", 400, corsHeaders⟩)
  | .returns (some rj) =>
    if !rj.truthy then ([], .ok ⟨errorBody "No file URL provided", 400, corsHeaders⟩)
    else
      match rj.hasMember "fileUrl" with
      | .typeError msg => ([], .error msg)
      | .ok false => ([], .ok ⟨errorBody "No file URL provided", 400, corsHeaders⟩)
      | .ok true =>
        match rj.getItem "fileUrl" with
        | .error msg => ([], .error msg)
        | .ok file_url =>
          match env.fetchOutcome with
          | .raises msg => ([.fetch file_url], .error msg)
          | .returns status_code content =>
            if status_code ≠ 200 then
              ([.fetch file_url],
               .ok ⟨errorBody ("Failed to download file: Status " ++ toString status_code),
                    400, corsHeaders⟩)
            else if content.isEmpty then
              ([.fetch file_url], .ok ⟨errorBody "Downloaded file is empty", 400, corsHeaders⟩)
            else
              let name := "projects/" ++ cfg.PROJECT_ID ++ "/locations/" ++ cfg.LOCATION
                ++ "/processors/" ++ cfg.PROCESSOR_ID
              match env.docaiOutcome with
              | .raises msg =>
                ([.fetch file_url, .docaiProcess name content "application/pdf"], .error msg)
              | .returns document =>
                let text := document.text
                let airtable_data : Json :=
                  .obj [("fields", .obj [("Document_AI_Response", .str text)])]
                let airtable_url := "https://api.airtable.com/v0/" ++ cfg.AIRTABLE_BASE_ID
                  ++ "/" ++ cfg.AIRTABLE_TABLE_NAME
                let airtable_headers :=
                  [("Authorization", "Bearer " ++ cfg.AIRTABLE_API_KEY),
                   ("Content-Type", "application/json")]
                let trace := [Call.fetch file_url,
                              Call.docaiProcess name content "application/pdf",
                              Call.airtablePost airtable_url airtable_headers airtable_data]
                match env.airtableOutcome with
                | .raisesRequestException msg =>
                  (trace,
                   .ok ⟨errorBody ("Error making request to Airtable: " ++ msg), 500, corsHeaders⟩)
                | .raisesOther msg => (trace, .error msg)
                | .returns astatus atext =>
                  if astatus = 200 then
                    (trace, .ok ⟨.obj [("success", .bool true), ("text", .str text)],
                                 200, corsHeaders⟩)
                  else
                    (trace,
                     .ok ⟨errorBody ("Failed to push to Airtable: Status " ++ toString astatus
                            ++ ", Response: " ++ atext), 500, corsHeaders⟩)

/-- The handler `process_document` (src/main.py lines 20-142): the OPTIONS
preflight branch, then the `try` body, with the outer `except Exception`
turning an escaped exception into a 500 JSON error. -/
def process_document (cfg : Config) (env : Env) (req : HttpRequest) :
    List Call × HttpResponse :=
  if req.method = "OPTIONS" then
    ([], ⟨.str "", 204,
      [("Access-Control-Allow-Origin", "*"),
       ("Access-Control-Allow-Methods", "POST"),
       ("Access-Control-Allow-Headers", "Content-Type"),
       ("Access-Control-Max-Age", "3600")]⟩)
  else
    match processDocumentTry cfg env req.get_json with
    | (trace, .ok resp) => (trace, resp)
    | (trace, .error e) =>
      (trace, ⟨errorBody ("Error processing document: " ++ e), 500, corsHeaders⟩)

/-! ## Concrete sample values (used by witnesses) -/

/-- A sample configuration. -/
def cfg0 : Config :=
  { PROJECT_ID := "proj", LOCATION := "us", PROCESSOR_ID := "proc42",
    BUCKET_NAME := "bucket", AIRTABLE_API_KEY := "key123",
    AIRTABLE_BASE_ID := "appBase", AIRTABLE_TABLE_NAME := "Documents" }

/-- A sample Document AI result document with extracted text `"Hello"`. -/
def doc0 : Document :=
  { text := "Hello", mime_type := "application/pdf", page_count := 1, entities := [] }

/-- A fully successful environment: fetch returns 200 with a 4-byte body,
Document AI extracts `"Hello"`, the Airtable push returns 200. -/
def envOK : Env :=
  { fetchOutcome := .returns 200 [37, 80, 68, 70],
    docaiOutcome := .returns doc0,
    airtableOutcome := .returns 200 "\x7brecords\x7d" }

/-- A sample POST request with body `{"fileUrl": "https://example.com/doc.pdf"}`. -/
def req0 : HttpRequest :=
  { method := "POST",
    get_json := .returns (some (.obj [("fileUrl", .str "https://example.com/doc.pdf")])) }

/-! ## Claims -/

/-- C6: for every request with method OPTIONS, regardless of body,
configuration or external behaviour, the handler responds immediately with
status 204, an empty body and the four CORS headers, and makes no outbound
call. -/
theorem options_preflight (cfg : Config) (env : Env) (req : HttpRequest)
    (hm : req.method = "OPTIONS") :
    process_document cfg env req =
      ([], ⟨.str "", 204,
        [("Access-Control-Allow-Origin", "*"),
         ("Access-Control-Allow-Methods", "POST"),
         ("Access-Control-Allow-Headers", "Content-Type"),
         ("Access-Control-Max-Age", "3600")]⟩) := by
  unfold process_document
  rw [if_pos hm]

/-- Witness for C6 at a concrete OPTIONS request. -/
theorem options_preflight_witness :
    process_document cfg0 envOK ⟨"OPTIONS", .returns none⟩ =
      ([], ⟨.str "", 204,
        [("Access-Control-Allow-Origin", "*"),
         ("Access-Control-Allow-Methods", "POST"),
         ("Access-Control-Allow-Headers", "Content-Type"),
         ("Access-Control-Max-Age", "3600")]⟩) :=
  options_preflight cfg0 envOK ⟨"OPTIONS", .returns none⟩ rfl

/-- C9: the handler never inspects the method except for the OPTIONS check:
a request with any non-OPTIONS method is processed exactly as the same
request with method POST. -/
theorem non_options_same_as_post (cfg : Config) (env : Env) (req : HttpRequest)
    (hm : req.method ≠ "OPTIONS") :
    process_document cfg env req = process_document cfg env ⟨"POST", req.get_json⟩ := by
  unfold process_document
  rw [if_neg hm, if_neg (by decide : ¬(("POST" : String) = "OPTIONS"))]

/-- Witness for C9 at a concrete DELETE request. -/
theorem non_options_same_as_post_witness :
    process_document cfg0 envOK ⟨"DELETE", req0.get_json⟩ =
      process_document cfg0 envOK ⟨"POST", req0.get_json⟩ :=
  non_options_same_as_post cfg0 envOK ⟨"DELETE", req0.get_json⟩ (by decide)

/-- C1: when the body carries a fileUrl, the fetch returns 200 with
non-empty content, Document AI succeeds with extracted text `doc.text`,
and the Airtable push returns 200, the response is status 200 with body
exactly `{ success: true, text: doc.text }`. -/
theorem success_response (cfg : Config) (env : Env) (req : HttpRequest)
    (rj u : Json) (content : List UInt8) (doc : Document) (atext : String)
    (hm : req.method ≠ "OPTIONS")
    (hj : req.get_json = .returns (some rj))
    (ht : rj.truthy = true)
    (hmem : rj.hasMember "fileUrl" = .ok true)
    (hget : rj.getItem "fileUrl" = .ok u)
    (hf : env.fetchOutcome = .returns 200 content)
    (hc : content.isEmpty = false)
    (hd : env.docaiOutcome = .returns doc)
    (ha : env.airtableOutcome = .returns 200 atext) :
    (process_document cfg env req).2 =
      ⟨.obj [("success", .bool true), ("text", .str doc.text)], 200, corsHeaders⟩ := by
  unfold process_document processDocumentTry
  rw [if_neg hm, hj]
  simp [ht, hmem, hget, hf, hc, hd, ha]

/-- Witness for C1 at the sample request and fully successful environment. -/
theorem success_response_witness :
    (process_document cfg0 envOK req0).2 =
      ⟨.obj [("success", .bool true), ("text", .str "Hello")], 200, corsHeaders⟩ :=
  success_response cfg0 envOK req0
    (.obj [("fileUrl", .str "https://example.com/doc.pdf")])
    (.str "https://example.com/doc.pdf")
    [37, 80, 68, 70] doc0 "\x7brecords\x7d"
    (by decide) rfl rfl rfl rfl rfl rfl rfl rfl

/-- C3: when the body carries a fileUrl and the fetch returns a non-200
status, or 200 with empty content, the response is status 400 with an
error body describing the fetch failure, and the only outbound call made
is the fetch (no document-processing or tabular call). -/
theorem fetch_failure_client_error (cfg : Config) (env : Env) (req : HttpRequest)
    (rj u : Json) (status : Nat) (content : List UInt8)
    (hm : req.method ≠ "OPTIONS")
    (hj : req.get_json = .returns (some rj))
    (ht : rj.truthy = true)
    (hmem : rj.hasMember "fileUrl" = .ok true)
    (hget : rj.getItem "fileUrl" = .ok u)
    (hf : env.fetchOutcome = .returns status content)
    (hfail : status ≠ 200 ∨ content.isEmpty = true) :
    (process_document cfg env req).2.status = 400 ∧
    (process_document cfg env req).2.body =
      (if status ≠ 200 then errorBody ("Failed to download file: Status " ++ toString status)
       else errorBody "Downloaded file is empty") ∧
    (process_document cfg env req).1 = [.fetch u] := by
  unfold process_document processDocumentTry
  rw [if_neg hm, hj]
  rcases hfail with hne | hemp
  · simp [ht, hmem, hget, hf, hne]
  · by_cases hne : status = 200
    · subst hne; simp [ht, hmem, hget, hf, hemp]
    · simp [ht, hmem, hget, hf, hne]

/-- Witness for C3: the fetch returns status 404. -/
theorem fetch_failure_client_error_witness :
    (process_document cfg0 ⟨.returns 404 [], .returns doc0, .returns 200 ""⟩ req0).2.status = 400 ∧
    (process_document cfg0 ⟨.returns 404 [], .returns doc0, .returns 200 ""⟩ req0).2.body =
      (if (404 : Nat) ≠ 200 then errorBody ("Failed to download file: Status " ++ toString (404 : Nat))
       else errorBody "Downloaded file is empty") ∧
    (process_document cfg0 ⟨.returns 404 [], .returns doc0, .returns 200 ""⟩ req0).1 =
      [.fetch (.str "https://example.com/doc.pdf")] :=
  fetch_failure_client_error cfg0 ⟨.returns 404 [], .returns doc0, .returns 200 ""⟩ req0
    (.obj [("fileUrl", .str "https://example.com/doc.pdf")])
    (.str "https://example.com/doc.pdf") 404 []
    (by decide) rfl rfl rfl rfl rfl (Or.inl (by decide))

/-- C4: when fetch and document processing succeed but the Airtable push
returns any non-200 status, the response is status 500 with an error body
naming the returned status and response text of the tabular service. -/
theorem airtable_non200_server_error (cfg : Config) (env : Env) (req : HttpRequest)
    (rj u : Json) (content : List UInt8) (doc : Document) (astatus : Nat) (atext : String)
    (hm : req.method ≠ "OPTIONS")
    (hj : req.get_json = .returns (some rj))
    (ht : rj.truthy = true)
    (hmem : rj.hasMember "fileUrl" = .ok true)
    (hget : rj.getItem "fileUrl" = .ok u)
    (hf : env.fetchOutcome = .returns 200 content)
    (hc : content.isEmpty = false)
    (hd : env.docaiOutcome = .returns doc)
    (ha : env.airtableOutcome = .returns astatus atext)
    (hne : astatus ≠ 200) :
    (process_document cfg env req).2.status = 500 ∧
    (process_document cfg env req).2.body =
      errorBody ("Failed to push to Airtable: Status " ++ toString astatus
        ++ ", Response: " ++ atext) := by
  unfold process_document processDocumentTry
  rw [if_neg hm, hj]
  simp [ht, hmem, hget, hf, hc, hd, ha, hne]

/-- Witness for C4: the Airtable push returns status 422. -/
theorem airtable_non200_server_error_witness :
    (process_document cfg0 ⟨.returns 200 [37], .returns doc0, .returns 422 "bad"⟩ req0).2.status = 500 ∧
    (process_document cfg0 ⟨.returns 200 [37], .returns doc0, .returns 422 "bad"⟩ req0).2.body =
      errorBody ("Failed to push to Airtable: Status " ++ toString (422 : Nat)
        ++ ", Response: " ++ "bad") :=
  airtable_non200_server_error cfg0 ⟨.returns 200 [37], .returns doc0, .returns 422 "bad"⟩ req0
    (.obj [("fileUrl", .str "https://example.com/doc.pdf")])
    (.str "https://example.com/doc.pdf") [37] doc0 422 "bad"
    (by decide) rfl rfl rfl rfl rfl rfl rfl rfl (by decide)

/-- C2 counterexample: the claim fails at three of the concrete inputs it
quantifies over. (a) An unparsable body: `request.get_json()` (default
`silent=False`) raises `BadRequest`, which the outer `except Exception`
answers with 500, not 400. (b) The body `{"fileUrl": ""}`: validation only
tests `not request_json` and `fileUrl not in request_json`, both false
here, so the handler proceeds to `requests.get("")`, which raises (no URL
scheme) — 500, and the fetch WAS attempted (trace non-empty). (c) The
truthy non-container body `5`, which lacks a `fileUrl` field: the
membership test `fileUrl not in 5` raises `TypeError` — 500. -/
theorem invalid_body_not_always_400 :
    ((process_document cfg0 envOK
      ⟨"POST", .raises "400 Bad Request: Failed to decode JSON object"⟩).2.status = 500 ∧
     (process_document cfg0 envOK
      ⟨"POST", .raises "400 Bad Request: Failed to decode JSON object"⟩).1 = []) ∧
    ((process_document cfg0
      ⟨.raises "Invalid URL: No scheme supplied", .returns doc0, .returns 200 ""⟩
      ⟨"POST", .returns (some (.obj [("fileUrl", .str "")]))⟩).2.status = 500 ∧
     (process_document cfg0
      ⟨.raises "Invalid URL: No scheme supplied", .returns doc0, .returns 200 ""⟩
      ⟨"POST", .returns (some (.obj [("fileUrl", .str "")]))⟩).1 = [.fetch (.str "")]) ∧
    (process_document cfg0 envOK ⟨"POST", .returns (some (.num 5))⟩).2.status = 500 :=
  ⟨⟨rfl, rfl⟩, ⟨rfl, rfl⟩, rfl⟩

/-- C2 as amended: for every non-OPTIONS request where `get_json()`
returns `None` or a parsed value that is falsy or whose membership test
reports the `fileUrl` key absent, the handler responds 400 with body
`{"error": "No file URL provided"}` and contacts no downstream service.
The other cases the original claim covered do NOT give 400: an unparsable
body makes `get_json()` raise, which the outer catch-all answers with 500;
an empty `fileUrl` *string* is not rejected and proceeds to the fetch
step; and a truthy non-container body lacking the field (e.g. the number
5) raises `TypeError` at the membership test, again 500. -/
theorem invalid_body_rejected (cfg : Config) (env : Env) (req : HttpRequest)
    (hm : req.method ≠ "OPTIONS")
    (h : req.get_json = .returns none ∨
      ∃ rj, req.get_json = .returns (some rj) ∧
        (rj.truthy = false ∨ rj.hasMember "fileUrl" = .ok false)) :
    (process_document cfg env req).2.status = 400 ∧
    (process_document cfg env req).2.body = errorBody "No file URL provided" ∧
    (process_document cfg env req).1 = [] := by
  unfold process_document processDocumentTry
  rw [if_neg hm]
  rcases h with hnone | ⟨rj, hj, hfalsy | hmem⟩
  · rw [hnone]; exact ⟨rfl, rfl, rfl⟩
  · rw [hj]; simp [hfalsy]
  · rw [hj]
    by_cases ht : rj.truthy
    · simp [ht, hmem]
    · simp [ht]

/-- Witness for the amended C2: body `{}` (parses, falsy, no fileUrl key). -/
theorem invalid_body_rejected_witness :
    (process_document cfg0 envOK ⟨"POST", .returns (some (.obj []))⟩).2.status = 400 ∧
    (process_document cfg0 envOK ⟨"POST", .returns (some (.obj []))⟩).2.body =
      errorBody "No file URL provided" ∧
    (process_document cfg0 envOK ⟨"POST", .returns (some (.obj []))⟩).1 = [] :=
  invalid_body_rejected cfg0 envOK ⟨"POST", .returns (some (.obj []))⟩ (by decide)
    (Or.inr ⟨.obj [], rfl, Or.inl rfl⟩)

/-- C5: the error-handling asymmetry between the document-processing call
and the tabular push. With environment `envA`, where the Airtable push
raises a `requests.exceptions.RequestException`, the `try` body itself
returns (the exception is caught locally) a 500 response of the same
`{error: ...}` shape as the non-200 case. With environment `envD`, where
the document-processing call raises, the `try` body does not catch: the
exception escapes it, and the outer catch-all answers 500 with a body
containing the exception message. -/
theorem tabular_vs_docai_exception_asymmetry (cfg : Config) (envA envD : Env)
    (rj u : Json) (content : List UInt8) (doc : Document) (emsg dmsg m : String)
    (hm : m ≠ "OPTIONS")
    (ht : rj.truthy = true)
    (hmem : rj.hasMember "fileUrl" = .ok true)
    (hget : rj.getItem "fileUrl" = .ok u)
    (hfA : envA.fetchOutcome = .returns 200 content)
    (hfD : envD.fetchOutcome = .returns 200 content)
    (hc : content.isEmpty = false)
    (hdA : envA.docaiOutcome = .returns doc)
    (haA : envA.airtableOutcome = .raisesRequestException emsg)
    (hdD : envD.docaiOutcome = .raises dmsg) :
    (processDocumentTry cfg envA (.returns (some rj))).2 =
      .ok ⟨errorBody ("Error making request to Airtable: " ++ emsg), 500, corsHeaders⟩ ∧
    (processDocumentTry cfg envD (.returns (some rj))).2 = .error dmsg ∧
    (process_document cfg envD ⟨m, .returns (some rj)⟩).2 =
      ⟨errorBody ("Error processing document: " ++ dmsg), 500, corsHeaders⟩ := by
  refine ⟨?_, ?_, ?_⟩
  · unfold processDocumentTry
    simp [ht, hmem, hget, hfA, hc, hdA, haA]
  · unfold processDocumentTry
    simp [ht, hmem, hget, hfD, hc, hdD]
  · unfold process_document processDocumentTry
    rw [if_neg hm]
    simp [ht, hmem, hget, hfD, hc, hdD]

/-- Witness for C5 at concrete environments. -/
theorem tabular_vs_docai_exception_asymmetry_witness :
    (processDocumentTry cfg0
        ⟨.returns 200 [37], .returns doc0, .raisesRequestException "timeout"⟩
        (.returns (some (.obj [("fileUrl", .str "u")])))).2 =
      .ok ⟨errorBody ("Error making request to Airtable: " ++ "timeout"), 500, corsHeaders⟩ ∧
    (processDocumentTry cfg0
        ⟨.returns 200 [37], .raises "boom", .returns 200 ""⟩
        (.returns (some (.obj [("fileUrl", .str "u")])))).2 = .error "boom" ∧
    (process_document cfg0
        ⟨.returns 200 [37], .raises "boom", .returns 200 ""⟩
        ⟨"POST", .returns (some (.obj [("fileUrl", .str "u")]))⟩).2 =
      ⟨errorBody ("Error processing document: " ++ "boom"), 500, corsHeaders⟩ :=
  tabular_vs_docai_exception_asymmetry cfg0
    ⟨.returns 200 [37], .returns doc0, .raisesRequestException "timeout"⟩
    ⟨.returns 200 [37], .raises "boom", .returns 200 ""⟩
    (.obj [("fileUrl", .str "u")]) (.str "u") [37] doc0 "timeout" "boom" "POST"
    (by decide) rfl rfl rfl rfl rfl rfl rfl rfl rfl

/-- C8: whenever the document-processing call succeeds with a document,
the trace contains an Airtable POST whose URL is built from the configured
base and table identifiers, whose headers carry the bearer token built
from the configured API key, and whose JSON body is exactly
`{"fields": {"Document_AI_Response": doc.text}}`. -/
theorem airtable_push_payload (cfg : Config) (env : Env) (req : HttpRequest)
    (rj u : Json) (content : List UInt8) (doc : Document)
    (hm : req.method ≠ "OPTIONS")
    (hj : req.get_json = .returns (some rj))
    (ht : rj.truthy = true)
    (hmem : rj.hasMember "fileUrl" = .ok true)
    (hget : rj.getItem "fileUrl" = .ok u)
    (hf : env.fetchOutcome = .returns 200 content)
    (hc : content.isEmpty = false)
    (hd : env.docaiOutcome = .returns doc) :
    Call.airtablePost
        ("https://api.airtable.com/v0/" ++ cfg.AIRTABLE_BASE_ID ++ "/" ++ cfg.AIRTABLE_TABLE_NAME)
        [("Authorization", "Bearer " ++ cfg.AIRTABLE_API_KEY),
         ("Content-Type", "application/json")]
        (.obj [("fields", .obj [("Document_AI_Response", .str doc.text)])])
      ∈ (process_document cfg env req).1 := by
  unfold process_document processDocumentTry
  rw [if_neg hm, hj]
  rcases ha : env.airtableOutcome with e | e | ⟨astatus, atext⟩
  · simp [ht, hmem, hget, hf, hc, hd, ha]
  · simp [ht, hmem, hget, hf, hc, hd, ha]
  · by_cases h200 : astatus = 200
    · subst h200; simp [ht, hmem, hget, hf, hc, hd, ha]
    · simp [ht, hmem, hget, hf, hc, hd, ha, h200]

/-- Witness for C8 at the sample request and successful environment. -/
theorem airtable_push_payload_witness :
    Call.airtablePost
        ("https://api.airtable.com/v0/" ++ cfg0.AIRTABLE_BASE_ID ++ "/" ++ cfg0.AIRTABLE_TABLE_NAME)
        [("Authorization", "Bearer " ++ cfg0.AIRTABLE_API_KEY),
         ("Content-Type", "application/json")]
        (.obj [("fields", .obj [("Document_AI_Response", .str doc0.text)])])
      ∈ (process_document cfg0 envOK req0).1 :=
  airtable_push_payload cfg0 envOK req0
    (.obj [("fileUrl", .str "https://example.com/doc.pdf")])
    (.str "https://example.com/doc.pdf") [37, 80, 68, 70] doc0
    (by decide) rfl rfl rfl rfl rfl rfl rfl

/-- Shape lemma: every response returned from inside the `try` body
carries exactly the single CORS header list and a status among
200, 400, 500. -/
theorem processDocumentTry_ok_shape (cfg : Config) (env : Env) (gj : GetJsonOutcome)
    (r : HttpResponse) (h : (processDocumentTry cfg env gj).2 = .ok r) :
    r.headers = corsHeaders ∧ (r.status = 200 ∨ r.status = 400 ∨ r.status = 500) := by
  unfold processDocumentTry at h
  repeat' split at h
  all_goals (simp at h <;> try subst h <;> simp [corsHeaders])

/-- C7: every response of the handler — for every request, configuration
and behaviour of the three external calls — includes the header
`Access-Control-Allow-Origin: *`. -/
theorem every_response_allows_any_origin (cfg : Config) (env : Env) (req : HttpRequest) :
    ("Access-Control-Allow-Origin", "*") ∈ (process_document cfg env req).2.headers := by
  unfold process_document
  by_cases hm : req.method = "OPTIONS"
  · rw [if_pos hm]; simp
  · rw [if_neg hm]
    rcases h : processDocumentTry cfg env req.get_json with ⟨trace, res⟩
    rcases res with e | r
    · simp [corsHeaders]
    · have hs := processDocumentTry_ok_shape cfg env req.get_json r (by rw [h])
      simp [hs.1, corsHeaders]

/-- C10: totality of the handler. `process_document` is a total function
of the request, configuration and external behaviour (every exception of
the embedded `try` body is absorbed by the outer catch-all, so no
exception propagates), and its response status is always one of
200, 204, 400, 500. -/
theorem handler_status_total (cfg : Config) (env : Env) (req : HttpRequest) :
    (process_document cfg env req).2.status = 200 ∨
    (process_document cfg env req).2.status = 204 ∨
    (process_document cfg env req).2.status = 400 ∨
    (process_document cfg env req).2.status = 500 := by
  unfold process_document
  by_cases hm : req.method = "OPTIONS"
  · rw [if_pos hm]; simp
  · rw [if_neg hm]
    rcases h : processDocumentTry cfg env req.get_json with ⟨trace, res⟩
    rcases res with e | r
    · simp
    · have hs := processDocumentTry_ok_shape cfg env req.get_json r (by rw [h])
      rcases hs.2 with h2 | h2 | h2 <;> simp [h2]

end FinApp
